import Mathlib

/-!
Shallow embedding of the content-publishing agents of this repository:
the YouTube variant (src/youtube-automation-agent.ts, namespace `YT`)
and the Instagram variant (the InstagramAutomationAgent source shipped
with the README, namespace `IG`).  External collaborators — Composio
action calls, the OpenAI client, the JavaScript Date runtime and the
filesystem — are modelled as explicit environments of call results
threaded through the functions; everything else is translated directly
from the TypeScript source.
-/

deriving instance DecidableEq for Except

/-- JavaScript truthiness of an optional string: `undefined` and the
empty string are falsy, every other string is truthy. -/
def truthy : Option String → Bool
  | none => false
  | some s => s ≠ ""

/-- One entry of the Composio connection list, as read by
`initializeConnections`: its `status`, the optional `toolkit.slug`
and the connection `id`. -/
structure Connection where
  status : String
  toolkitSlug : Option String
  id : String
  deriving DecidableEq

/-- Lookup in the agents' `connections` object.  Successive JavaScript
assignments overwrite, so the entry added last wins. -/
def connLookup : List (String × String) → String → Option String
  | [], _ => none
  | (k, v) :: rest, key =>
    match connLookup rest key with
    | some v' => some v'
    | none => if k = key then some v else none

/-- `slug.toLowerCase()` (toolkit slugs are ASCII). -/
def jsToLower (s : String) : String :=
  String.mk (s.toList.map Char.toLower)

/-- `s.trim()`: strip leading and trailing whitespace. -/
def jsTrim (s : String) : String :=
  String.mk (((s.toList.dropWhile Char.isWhitespace).reverse.dropWhile
    Char.isWhitespace).reverse)

/-- The loop `for (const conn of activeConnections) if (conn.toolkit?.slug)
this.connections[conn.toolkit.slug.toLowerCase()] = conn.id` over the
already-filtered active connections.  An absent or empty slug is falsy
and the connection is skipped. -/
def buildConnections : List Connection → List (String × String)
  | [] => []
  | c :: cs =>
    match c.toolkitSlug with
    | some slug =>
      if slug = "" then buildConnections cs
      else (jsToLower slug, c.id) :: buildConnections cs
    | none => buildConnections cs

/-- `const activeConnections = allConnections.filter((conn) => conn.status === "ACTIVE")`. -/
def activeOf (conns : List Connection) : List Connection :=
  conns.filter (fun c => c.status = "ACTIVE")

/-- `const missing = required.filter((toolkit) => !this.connections[toolkit])`. -/
def missingOf (required : List String) (m : List (String × String)) : List String :=
  required.filter (fun t => ¬ truthy (connLookup m t))

/-- A Notion text property as the agents read it: an optional `title`
array and an optional `rich_text` array, each item carrying an optional
`plain_text`. -/
structure NotionProp where
  title : Option (List (Option String))
  richText : Option (List (Option String))
  deriving DecidableEq

namespace YT

/-- The result of `new Date(...)` in the host runtime: `toISO s` is
`new Date(s).toISOString()` (`none` when the date is invalid and
`toISOString` throws a RangeError), `nowISO` is
`new Date().toISOString()`. -/
structure DateOracle where
  toISO : String → Option String
  nowISO : String

/-- The `VideoData` interface of youtube-automation-agent.ts. -/
structure VideoData where
  id : String
  videoBrief : String
  driveFileId : String
  publishDate : String
  deriving DecidableEq

/-- The fields of a queried Notion page that `extractVideoData` reads:
the page id, the `Video Brief` property, `props["Drive Link"]?.url`
and `props["Publish Date"]?.date?.start`. -/
structure NotionPage where
  id : String
  videoBrief : Option NotionProp
  driveLinkUrl : Option String
  publishDateStart : Option String
  deriving DecidableEq

/-- The writable row fields of the Notion queue row that the YouTube
agent updates: `Status`, `Generated Title`, `Generated Description`
and `YouTube Link`. -/
structure Row where
  status : String
  genTitle : Option String
  genDescription : Option String
  youtubeLink : Option String
  deriving DecidableEq

/-- The `{title, description}` object returned by `generateMetadata`. -/
structure Metadata where
  title : String
  description : String
  deriving DecidableEq

/-- `getTextFromProperty` of youtube-automation-agent.ts: if the
property is absent return `""`; if `title` is a non-empty array return
its first `plain_text` (or `""`); otherwise if `rich_text` is a
non-empty array return its first `plain_text` (or `""`); else `""`. -/
def getTextFromProperty : Option NotionProp → String
  | none => ""
  | some p =>
    match p.title with
    | some (x :: _) => x.getD ""
    | _ =>
      match p.richText with
      | some (x :: _) => x.getD ""
      | _ => ""

/-- Character class `[a-zA-Z0-9_-]` of the Drive-URL regex. -/
def isIdChar (c : Char) : Bool :=
  c.isAlpha || c.isDigit || c = '_' || c = '-'

/-- Tests whether the first character list is a prefix of the second. -/
def charsPrefixAt : List Char → List Char → Bool
  | [], _ => true
  | _ :: _, [] => false
  | a :: as, b :: bs => a = b && charsPrefixAt as bs

/-- Scan for the first position where the regex
`\/file\/d\/([a-zA-Z0-9_-]+)` matches and return the (necessarily
non-empty, greedy) capture group, as `url.match(regex)` does. -/
def findFileId : List Char → Option (List Char)
  | [] => none
  | c :: cs =>
    if charsPrefixAt "/file/d/".toList (c :: cs) then
      if ((c :: cs).drop 8).takeWhile isIdChar ≠ [] then
        some (((c :: cs).drop 8).takeWhile isIdChar)
      else findFileId cs
    else findFileId cs

/-- `extractFileIdFromDriveUrl` of youtube-automation-agent.ts: throws
on an empty (falsy) url, returns the regex capture when the regex
matches, and otherwise throws the could-not-parse error. -/
def extractFileIdFromDriveUrl (url : String) : Except String String :=
  if url = "" then .error "Google Drive URL is empty."
  else
    match findFileId url.toList with
    | some idc => .ok (String.mk idc)
    | none => .error ("Could not parse File ID from Google Drive URL: " ++ url)

/-- The `finalPublishDate` computation of `extractVideoData`:
`publishDateStr ? new Date(publishDateStr).toISOString() : new Date().toISOString()`.
A present but unparsable value makes `toISOString` throw a RangeError;
an absent or empty one yields the current time. -/
def finalPublishDate (oracle : DateOracle) : Option String → Except String String
  | some s =>
    if s = "" then .ok oracle.nowISO
    else
      match oracle.toISO s with
      | some iso => .ok iso
      | none => .error "Invalid time value"
  | none => .ok oracle.nowISO

/-- `extractVideoData` of youtube-automation-agent.ts.  The returned
Bool records whether the missing-publish-date warning was logged
(exactly when the `Publish Date` start is falsy).  Both the date
computation and `extractFileIdFromDriveUrl` run before `processEntry`'s
try block, so their exceptions escape `processEntry` uncaught. -/
def extractVideoData (oracle : DateOracle) (page : NotionPage) :
    Except String (VideoData × Bool) :=
  match finalPublishDate oracle page.publishDateStart with
  | .error e => .error e
  | .ok pd =>
    match extractFileIdFromDriveUrl (page.driveLinkUrl.getD "") with
    | .error e => .error e
    | .ok fid =>
      .ok ({ id := page.id, videoBrief := getTextFromProperty page.videoBrief,
             driveFileId := fid, publishDate := pd }, ¬ truthy page.publishDateStart)

/-- Environment of external-call results for one `processEntry` run of
the YouTube agent.  Each `write*` field is the outcome of the
corresponding `NOTION_UPDATE_PAGE` call; `download` is the
`GOOGLEDRIVE_DOWNLOAD_FILE` response's `downloaded_file_content.uri`
(`ok none` when the field is missing); `schedule` is the
`GOOGLECALENDAR_CREATE_EVENT` outcome; `openaiResult` is the chat
completion's `choices[0]?.message?.content` (`error` when the API call
throws, `ok none` when the content is null); `jsonParse` is the
`JSON.parse` collaborator on the trimmed response (`none` when parsing
throws); `upload` is the `YOUTUBE_UPLOAD_VIDEO` response's
`data.response_data.id`. -/
structure Env where
  writeInProgress : Except String Unit
  download : Except String (Option String)
  schedule : Except String Unit
  openaiResult : Except String (Option String)
  jsonParse : String → Option Metadata
  upload : Except String (Option String)
  writeMetadata : Except String Unit
  writeLink : Except String Unit
  writeDone : Except String Unit
  writeError : Except String Unit

/-- `updateNotionPage`: throws when the notion connection is missing,
otherwise the outcome of the `NOTION_UPDATE_PAGE` call.  (The
properties objects passed by the agent are never empty, so the early
return for empty properties is dead here.) -/
def updateNotionPage (conns : List (String × String))
    (callResult : Except String Unit) : Except String Unit :=
  if ¬ truthy (connLookup conns "notion") then .error "Notion connection not found"
  else callResult

/-- `downloadVideoFromDrive` of youtube-automation-agent.ts: empty file
id and missing googledrive connection throw; then the call result's
`uri` must be a truthy string or the informative error is thrown. -/
def downloadVideoFromDrive (conns : List (String × String)) (env : Env)
    (driveFileId : String) : Except String String :=
  if driveFileId = "" then .error "Google Drive File ID is empty."
  else if ¬ truthy (connLookup conns "googledrive") then
    .error "Google Drive connection not found in Composio."
  else
    match env.download with
    | .error e => .error e
    | .ok uri? =>
      if truthy uri? then .ok (uri?.getD "")
      else .error "Download via Composio failed. Could not find a local file path in the RAW response printed above."

/-- `scheduleEvent`: missing googlecalendar connection throws, then the
`GOOGLECALENDAR_CREATE_EVENT` outcome is rethrown on failure. -/
def scheduleEvent (conns : List (String × String)) (env : Env) :
    Except String Unit :=
  if ¬ truthy (connLookup conns "googlecalendar") then
    .error "Google Calendar connection not found"
  else env.schedule

/-- The deterministic fallback metadata built in the catch branch of
`generateMetadata`. -/
def fallbackMetadata (data : VideoData) : Metadata :=
  { title := data.videoBrief ++ " - Automated Upload",
    description := "Video about: " ++ data.videoBrief }

/-- `generateMetadata` of youtube-automation-agent.ts: the connection
check throws before the try block; inside it, an API failure, a falsy
response text or a JSON.parse failure are all caught and replaced by
the deterministic fallback, so the step never fails once the openai
connection is present. -/
def generateMetadata (conns : List (String × String)) (env : Env)
    (data : VideoData) : Except String Metadata :=
  if ¬ truthy (connLookup conns "openai") then .error "OpenAI connection not found."
  else
    .ok (match env.openaiResult with
      | .error _ => fallbackMetadata data
      | .ok none => fallbackMetadata data
      | .ok (some txt) =>
        if txt = "" then fallbackMetadata data
        else
          match env.jsonParse (jsTrim txt) with
          | some m => m
          | none => fallbackMetadata data)

/-- `uploadToYouTube`: missing youtube connection throws; a missing or
falsy video id in the response throws (with the response's absent
`error` field defaulting the message); otherwise the watch URL is
built from the id. -/
def uploadToYouTube (conns : List (String × String)) (env : Env) :
    Except String String :=
  if ¬ truthy (connLookup conns "youtube") then .error "YouTube connection not found"
  else
    match env.upload with
    | .error e => .error e
    | .ok vid? =>
      if truthy vid? then .ok ("https://www.youtube.com/watch?v=" ++ vid?.getD "")
      else .error "YouTube upload failed. Error from API: No video ID returned."

/-- The try block of `processEntry`, threading the Notion row through
the ordered pipeline writes.  Returns the row as updated by the
successful writes together with the first error, if any.  A failed
`NOTION_UPDATE_PAGE` call leaves the row unchanged. -/
def tryBody (conns : List (String × String)) (env : Env) (data : VideoData)
    (row : Row) : Row × Except String Unit :=
  match updateNotionPage conns env.writeInProgress with
  | .error e => (row, .error e)
  | .ok _ =>
    let row1 := { row with status := "In progress" }
    match downloadVideoFromDrive conns env data.driveFileId with
    | .error e => (row1, .error e)
    | .ok _path =>
      match scheduleEvent conns env with
      | .error e => (row1, .error e)
      | .ok _ =>
        match generateMetadata conns env data with
        | .error e => (row1, .error e)
        | .ok md =>
          match updateNotionPage conns env.writeMetadata with
          | .error e => (row1, .error e)
          | .ok _ =>
            let row2 := { row1 with genTitle := some md.title,
                                    genDescription := some md.description }
            match uploadToYouTube conns env with
            | .error e => (row2, .error e)
            | .ok url =>
              match updateNotionPage conns env.writeLink with
              | .error e => (row2, .error e)
              | .ok _ =>
                let row3 := { row2 with youtubeLink := some url }
                match updateNotionPage conns env.writeDone with
                | .error e => (row3, .error e)
                | .ok _ => ({ row3 with status := "Done" }, .ok ())

/-- `processEntry` of youtube-automation-agent.ts.  `extractVideoData`
runs before the try block, so its exceptions escape uncaught.  The
catch branch writes only the `Error` status; if that compensating
write itself throws, the new exception escapes.  The returned
`Option String` is the escaping exception, if any.  (The finally
block only deletes the temporary file and does not touch the row.) -/
def processEntry (conns : List (String × String)) (oracle : DateOracle)
    (env : Env) (page : NotionPage) (row : Row) : Row × Option String :=
  match extractVideoData oracle page with
  | .error e => (row, some e)
  | .ok (data, _warned) =>
    match tryBody conns env data row with
    | (row', .ok _) => (row', none)
    | (row', .error _e) =>
      match updateNotionPage conns env.writeError with
      | .ok _ => ({ row' with status := "Error" }, none)
      | .error e2 => (row', some e2)

/-- One queue-database entry: the static page fields and the mutable
row state held by the queue store. -/
structure Entry where
  page : NotionPage
  row : Row
  deriving DecidableEq

/-- The `for (const page of unprocessedPages) await this.processEntry(page)`
loop over the queried database: entries whose status is not
`"Not started"` are skipped (the filter), and the first exception
escaping `processEntry` aborts the rest of the cycle. -/
def processAll (conns : List (String × String)) (oracle : DateOracle)
    (envOf : String → Env) : List Entry → List Entry × Option String
  | [] => ([], none)
  | e :: es =>
    if e.row.status = "Not started" then
      match processEntry conns oracle (envOf e.page.id) e.page e.row with
      | (row', some msg) => ({ e with row := row' } :: es, some msg)
      | (row', none) =>
        let rest := processAll conns oracle envOf es
        ({ e with row := row' } :: rest.1, rest.2)
    else
      let rest := processAll conns oracle envOf es
      (e :: rest.1, rest.2)

/-- `findAndProcessNewEntries` of youtube-automation-agent.ts: the whole
body sits in a try whose catch only logs, so the cycle always returns
normally; a missing notion connection or a failed
`NOTION_QUERY_DATABASE` call (`queryOk = false`) leaves the database
untouched. -/
def findAndProcessNewEntries (conns : List (String × String))
    (oracle : DateOracle) (envOf : String → Env) (queryOk : Bool)
    (db : List Entry) : List Entry :=
  if ¬ truthy (connLookup conns "notion") then db
  else if ¬ queryOk then db
  else (processAll conns oracle envOf db).1

/-- The hardcoded `required` toolkit list of the YouTube agent's
`initializeConnections`. -/
def requiredToolkits : List String :=
  ["notion", "googlecalendar", "openai", "youtube", "googledrive"]

/-- `initializeConnections` of youtube-automation-agent.ts: throws when
no connection is active; otherwise builds the connections map and
returns it together with the `missing` list — which is only logged as
a warning, never thrown. -/
def initializeConnections (conns : List Connection) :
    Except String (List (String × String) × List String) :=
  if (activeOf conns).length = 0 then
    .error "No active connections found. Please authenticate your services in Composio dashboard."
  else
    .ok (buildConnections (activeOf conns),
         missingOf requiredToolkits (buildConnections (activeOf conns)))

end YT

namespace IG

/-- The `InstaData` interface of the Instagram agent. -/
structure InstaData where
  id : String
  videoBrief : String
  driveLink : String
  publishDate : String
  deriving DecidableEq

/-- The fields of a queried Notion page that `extractInstaData` reads. -/
structure Page where
  id : String
  videoBrief : Option NotionProp
  driveLinkUrl : Option String
  publishDateStart : Option String
  deriving DecidableEq

/-- The writable row fields updated by the Instagram agent: `Status`,
`Generated Caption` and `Post Link`. -/
structure Row where
  status : String
  genCaption : Option String
  postLink : Option String
  deriving DecidableEq

/-- One item of the `INSTAGRAM_GET_USER_MEDIA` media array: its `id`
and optional `permalink`. -/
structure Media where
  id : String
  permalink : Option String
  deriving DecidableEq

/-- Environment of external-call results for one `publishInstagramReel`
run: `createContainer` is the `INSTAGRAM_CREATE_MEDIA_CONTAINER`
response's `data.id`; `polls i` is the i-th
`INSTAGRAM_GET_POST_STATUS` response's `data.status_code` (`ok none`
when the field is missing); `createPost` is the
`INSTAGRAM_CREATE_POST` response's `data.id`; `userMedia` is the
`INSTAGRAM_GET_USER_MEDIA` media array (`ok none` when the response
holds no array, which `Array.isArray` maps to `[]`). -/
structure PubEnv where
  createContainer : Except String (Option String)
  polls : Nat → Except String (Option String)
  createPost : Except String (Option String)
  userMedia : Except String (Option (List Media))

/-- Environment of external-call results for one Instagram
`processEntry` run.  The `write*` fields are the outcomes of the
corresponding `NOTION_UPDATE_PAGE` calls (the Instagram agent passes
the connection id without checking it, so no separate connection check
is modelled); `download` and `fileDownloaded` model the
`GOOGLEDRIVE_DOWNLOAD_FILE` response uri and `fs.existsSync`;
`caption` is the chat completion's content; `nowISO` is
`new Date().toISOString()`. -/
structure EntryEnv where
  writeInProgress : Except String Unit
  download : Except String (Option String)
  fileDownloaded : String → Bool
  caption : Except String (Option String)
  writeCaption : Except String Unit
  pub : PubEnv
  writeLink : Except String Unit
  writeDone : Except String Unit
  writeError : Except String Unit
  nowISO : String

/-- One Instagram queue-database entry. -/
structure Entry where
  page : Page
  row : Row
  deriving DecidableEq

/-- `getTextFromProperty` of the Instagram agent:
`property.title?.[0]?.plain_text || property.rich_text?.[0]?.plain_text || ""`
— unlike the YouTube variant, an empty first title text falls through
to the rich_text alternative. -/
def getTextFromProperty : Option NotionProp → String
  | none => ""
  | some p =>
    let t :=
      match p.title with
      | some (x :: _) => x.getD ""
      | _ => ""
    if t ≠ "" then t
    else
      match p.richText with
      | some (x :: _) => x.getD ""
      | _ => ""

/-- `extractInstaData`: total, never throws.  An absent or empty
`Publish Date` start falls back to `new Date().toISOString()`. -/
def extractInstaData (env : EntryEnv) (page : Page) : InstaData :=
  { id := page.id,
    videoBrief := getTextFromProperty page.videoBrief,
    driveLink := page.driveLinkUrl.getD "",
    publishDate :=
      match page.publishDateStart with
      | some s => if s ≠ "" then s else env.nowISO
      | none => env.nowISO }

/-- Character class `[-\w]` of the Instagram agent's Drive-link regex. -/
def isWordDashChar (c : Char) : Bool :=
  c.isAlpha || c.isDigit || c = '_' || c = '-'

/-- Length of the longest run of `[-\w]` characters, folded with the
current-run accumulator. -/
def maxRunAux : List Char → Nat → Nat → Nat
  | [], cur, best => max cur best
  | c :: cs, cur, best =>
    if isWordDashChar c then maxRunAux cs (cur + 1) best
    else maxRunAux cs 0 (max cur best)

/-- Whether `driveLink.match(/[-\w]{25,}/)` finds a match: some run of
at least 25 word-or-dash characters exists. -/
def hasFileIdRun (s : String) : Bool :=
  25 ≤ maxRunAux s.toList 0 0

/-- `downloadVideoFromDrive` of the Instagram agent: a falsy link, an
unmatchable link, a failed download call, or a falsy/non-existent
local path all throw. -/
def downloadVideoFromDrive (env : EntryEnv) (driveLink : String) :
    Except String String :=
  if driveLink = "" then .error "Google Drive link missing."
  else if ¬ hasFileIdRun driveLink then .error ("Invalid Drive link: " ++ driveLink)
  else
    match env.download with
    | .error e => .error e
    | .ok uri? =>
      if truthy uri? && env.fileDownloaded (uri?.getD "") then .ok (uri?.getD "")
      else .error "Download failed — no valid local file path found in response."

/-- `generateCaption` of the Instagram agent: the OpenAI call is not
guarded, so an API failure propagates; a falsy (absent, empty or
whitespace-only) content falls back to the video brief. -/
def generateCaption (env : EntryEnv) (data : InstaData) :
    Except String String :=
  match env.caption with
  | .error e => .error e
  | .ok content? =>
    let t := jsTrim (content?.getD "")
    .ok (if t = "" then data.videoBrief else t)

/-- The polling loop body of `pollForMediaStatus`, recursing on the
remaining attempts with `i` the index of the next poll.  Returns the
result together with the number of polls actually performed:
`FINISHED` yields `true`, `ERROR` yields `false`, an exception from
the status call propagates, anything else retries; an exhausted
budget yields `false` with no further poll. -/
def pollAux (polls : Nat → Except String (Option String)) :
    Nat → Nat → (Except String Bool) × Nat
  | _, 0 => (.ok false, 0)
  | i, n + 1 =>
    match polls i with
    | .error e => (.error e, 1)
    | .ok st =>
      if st = some "FINISHED" then (.ok true, 1)
      else if st = some "ERROR" then (.ok false, 1)
      else
        let r := pollAux polls (i + 1) n
        (r.1, r.2 + 1)

/-- `pollForMediaStatus` of the Instagram agent: `maxRetries = 30`
attempts starting at index 0. -/
def pollForMediaStatus (polls : Nat → Except String (Option String)) :
    (Except String Bool) × Nat :=
  pollAux polls 0 30

/-- `publishInstagramReel` of the Instagram agent: create the media
container, poll for processing (a `false` poll outcome — remote error
or timeout alike — throws the single combined error), publish the
post, then look the permalink up in the recent user media, falling
back to the base Instagram URL when no truthy permalink is found. -/
def publishInstagramReel (env : PubEnv) : Except String String :=
  match env.createContainer with
  | .error e => .error e
  | .ok cid? =>
    if ¬ truthy cid? then
      .error "Failed to get creation_id from Instagram container response."
    else
      match (pollForMediaStatus env.polls).1 with
      | .error e => .error e
      | .ok false => .error "Media processing failed or timed out."
      | .ok true =>
        match env.createPost with
        | .error e => .error e
        | .ok pid? =>
          if ¬ truthy pid? then .error "Failed to get post ID after publishing."
          else
            match env.userMedia with
            | .error e => .error e
            | .ok arr? =>
              let mediaList := arr?.getD []
              match mediaList.find? (fun m => m.id = pid?.getD "") with
              | some m =>
                if truthy m.permalink then .ok (m.permalink.getD "")
                else .ok "https://www.instagram.com/"
              | none => .ok "https://www.instagram.com/"

/-- The try block of the Instagram `processEntry`, threading the row
through the pipeline writes. -/
def tryBody (env : EntryEnv) (data : InstaData) (row : Row) :
    Row × Except String Unit :=
  match env.writeInProgress with
  | .error e => (row, .error e)
  | .ok _ =>
    let row1 := { row with status := "In progress" }
    match downloadVideoFromDrive env data.driveLink with
    | .error e => (row1, .error e)
    | .ok _path =>
      match generateCaption env data with
      | .error e => (row1, .error e)
      | .ok capt =>
        match env.writeCaption with
        | .error e => (row1, .error e)
        | .ok _ =>
          let row2 := { row1 with genCaption := some capt }
          match publishInstagramReel env.pub with
          | .error e => (row2, .error e)
          | .ok permalink =>
            match env.writeLink with
            | .error e => (row2, .error e)
            | .ok _ =>
              let row3 := { row2 with postLink := some permalink }
              match env.writeDone with
              | .error e => (row3, .error e)
              | .ok _ => ({ row3 with status := "Done" }, .ok ())

/-- `processEntry` of the Instagram agent.  `extractInstaData` is total,
so unlike the YouTube variant nothing escapes before the try block;
the catch branch writes only the `Error` status and its own failure
escapes. -/
def processEntry (env : EntryEnv) (page : Page) (row : Row) :
    Row × Option String :=
  let data := extractInstaData env page
  match tryBody env data row with
  | (row', .ok _) => (row', none)
  | (row', .error _e) =>
    match env.writeError with
    | .ok _ => ({ row' with status := "Error" }, none)
    | .error e2 => (row', some e2)

/-- The hardcoded `required` toolkit list of the Instagram agent (the
googlecalendar requirement is commented out in the source). -/
def requiredToolkits : List String :=
  ["notion", "openai", "instagram", "googledrive"]

/-- `initializeConnections` of the Instagram agent: throws when no
connection is active; otherwise builds the connections map and — in
contrast to the YouTube variant — throws an error listing every
missing required toolkit when any is missing. -/
def initializeConnections (conns : List Connection) :
    Except String (List (String × String)) :=
  if (activeOf conns).length = 0 then .error "No active connections found."
  else
    if (missingOf requiredToolkits (buildConnections (activeOf conns))).length > 0 then
      .error ("Missing connections for: " ++ String.intercalate ", "
        (missingOf requiredToolkits (buildConnections (activeOf conns))))
    else .ok (buildConnections (activeOf conns))

end IG

/-! Helper lemmas about the embedded definitions. -/

theorem string_mk_ne_empty (l : List Char) (h : l ≠ []) : String.mk l ≠ "" := by
  cases l with
  | nil => exact absurd rfl h
  | cons c cs =>
    intro he
    exact List.noConfusion (congrArg String.data he)

/-- The regex capture of `findFileId` is never empty (the class is
matched with `+`). -/
theorem findFileId_ne_nil (l : List Char) (idc : List Char)
    (h : YT.findFileId l = some idc) : idc ≠ [] := by
  induction l with
  | nil => simp [YT.findFileId] at h
  | cons c cs ih =>
    rw [YT.findFileId] at h
    split at h
    · split at h
      · rename_i hne
        obtain rfl := Option.some.inj h
        exact hne
      · exact ih h
    · exact ih h

/-- A successfully extracted Drive file id is a non-empty string. -/
theorem extractFileId_ok_ne (url fid : String)
    (h : YT.extractFileIdFromDriveUrl url = .ok fid) : fid ≠ "" := by
  unfold YT.extractFileIdFromDriveUrl at h
  split at h
  · exact absurd h (by simp)
  · split at h
    · rename_i idc hfind
      obtain rfl := Except.ok.inj h
      exact string_mk_ne_empty idc (findFileId_ne_nil _ idc hfind)
    · exact absurd h (by simp)

/-- Successful extraction always carries a non-empty Drive file id, so
the empty-id guard of `downloadVideoFromDrive` never fires after it. -/
theorem extractVideoData_fileId_ne (oracle : YT.DateOracle) (page : YT.NotionPage)
    (d : YT.VideoData) (w : Bool)
    (h : YT.extractVideoData oracle page = .ok (d, w)) : d.driveFileId ≠ "" := by
  unfold YT.extractVideoData at h
  split at h
  · exact absurd h (by simp)
  · split at h
    · exact absurd h (by simp)
    · rename_i pd hpd fid hfid
      have hd := (Prod.mk.injEq _ _ _ _ ▸ Except.ok.inj h).1
      subst hd
      exact extractFileId_ok_ne _ _ hfid

/-- The try block of the YouTube `processEntry` only succeeds after the
final write, which sets the status to `Done`. -/
theorem tryBody_ok_status (conns : List (String × String)) (env : YT.Env)
    (data : YT.VideoData) (row r : YT.Row) (u : Unit)
    (h : YT.tryBody conns env data row = (r, Except.ok u)) : r.status = "Done" := by
  unfold YT.tryBody at h
  repeat' split at h
  all_goals simp only [Prod.mk.injEq] at h
  all_goals first
    | exact h.1 ▸ rfl
    | exact absurd h.2 (by simp)

/-- A status-call outcome on which the polling loop keeps retrying:
a successful call whose status code is neither FINISHED nor ERROR. -/
def IG.nonTerminal (r : Except String (Option String)) : Bool :=
  match r with
  | .ok st => ¬ (st = some "FINISHED") && ¬ (st = some "ERROR")
  | .error _ => false

/-- An all-non-terminal window of `n` polls exhausts the budget: the
loop returns `false` after exactly `n` polls. -/
theorem pollAux_timeout (polls : Nat → Except String (Option String)) :
    ∀ (n i : Nat), (∀ j, j < n → IG.nonTerminal (polls (i + j)) = true) →
    IG.pollAux polls i n = (Except.ok false, n) := by
  intro n
  induction n with
  | zero => intro i _; rfl
  | succ n ih =>
    intro i h
    have h0 : IG.nonTerminal (polls i) = true := by simpa using h 0 (Nat.succ_pos n)
    rw [IG.pollAux]
    cases hp : polls i with
    | error e => rw [hp] at h0; simp [IG.nonTerminal] at h0
    | ok st =>
      rw [hp] at h0
      simp only [IG.nonTerminal, Bool.and_eq_true, decide_eq_true_eq] at h0
      have ihh : IG.pollAux polls (i + 1) n = (Except.ok false, n) := by
        apply ih
        intro j hj
        have hx := h (j + 1) (Nat.succ_lt_succ hj)
        rw [show i + (j + 1) = (i + 1) + j by omega] at hx
        exact hx
      simp [h0.1, h0.2, ihh]

/-- `k` non-terminal polls followed by a FINISHED poll within the
budget make the loop succeed after exactly `k + 1` polls. -/
theorem pollAux_finished (polls : Nat → Except String (Option String)) :
    ∀ (k n i : Nat), k < n →
    (∀ j, j < k → IG.nonTerminal (polls (i + j)) = true) →
    polls (i + k) = .ok (some "FINISHED") →
    IG.pollAux polls i n = (Except.ok true, k + 1) := by
  intro k
  induction k with
  | zero =>
    intro n i hk _ hfin
    cases n with
    | zero => omega
    | succ m =>
      rw [IG.pollAux]
      rw [show i + 0 = i from rfl] at hfin
      rw [hfin]
      simp
  | succ k ih =>
    intro n i hk h hfin
    cases n with
    | zero => omega
    | succ m =>
      have h0 : IG.nonTerminal (polls i) = true := by simpa using h 0 (Nat.succ_pos k)
      rw [IG.pollAux]
      cases hp : polls i with
      | error e => rw [hp] at h0; simp [IG.nonTerminal] at h0
      | ok st =>
        rw [hp] at h0
        simp only [IG.nonTerminal, Bool.and_eq_true, decide_eq_true_eq] at h0
        have ihh : IG.pollAux polls (i + 1) m = (Except.ok true, k + 1) := by
          apply ih m (i + 1) (by omega)
          · intro j hj
            have hx := h (j + 1) (Nat.succ_lt_succ hj)
            rw [show i + (j + 1) = (i + 1) + j by omega] at hx
            exact hx
          · rw [show (i + 1) + k = i + (k + 1) by omega]
            exact hfin
        simp [h0.1, h0.2, ihh]

/-- The polling loop never performs more polls than its budget. -/
theorem pollAux_count_le (polls : Nat → Except String (Option String)) :
    ∀ (n i : Nat), (IG.pollAux polls i n).2 ≤ n := by
  intro n
  induction n with
  | zero => intro i; simp [IG.pollAux]
  | succ n ih =>
    intro i
    rw [IG.pollAux]
    cases polls i with
    | error e => simp
    | ok st =>
      by_cases hF : st = some "FINISHED"
      · simp [hF]
      · by_cases hE : st = some "ERROR"
        · simp [hF, hE]
        · simpa [hF, hE] using Nat.succ_le_succ (ih (i + 1))

/-! Concrete fixtures used by witnesses and counterexamples. -/

def pollsEventuallyFinished : Nat → Except String (Option String) :=
  fun i => if i < 29 then .ok (some "PROCESSING") else .ok (some "FINISHED")

def pubEnvFinished : IG.PubEnv :=
  { createContainer := .ok (some "CID"), polls := pollsEventuallyFinished,
    createPost := .ok (some "P1"),
    userMedia := .ok (some [{ id := "P1", permalink := some "https://host/p/P1" }]) }

def pubEnvTimedOut : IG.PubEnv :=
  { createContainer := .ok (some "CID"), polls := fun _ => .ok (some "PROCESSING"),
    createPost := .ok none, userMedia := .ok none }

def pubEnvRemoteError : IG.PubEnv :=
  { createContainer := .ok (some "CID"), polls := fun _ => .ok (some "ERROR"),
    createPost := .ok none, userMedia := .ok none }

/-- C2: if the first 29 polls return a non-terminal status and the 30th
returns FINISHED, `pollForMediaStatus` succeeds after exactly 30 polls
and the driver goes on to publish and resolve the link; if all 30
polls are non-terminal, the driver fails after exactly 30 polls —
never a 31st (the count is bounded by 30 for every status sequence). -/
theorem c2_poll_budget :
    (∀ (env : IG.PubEnv) (cid pid link : String) (media : List IG.Media),
      (∀ j, j < 29 → IG.nonTerminal (env.polls j) = true) →
      env.polls 29 = .ok (some "FINISHED") →
      env.createContainer = .ok (some cid) → cid ≠ "" →
      env.createPost = .ok (some pid) → pid ≠ "" →
      env.userMedia = .ok (some media) →
      media.find? (fun m => m.id = pid) = some { id := pid, permalink := some link } →
      link ≠ "" →
      IG.pollForMediaStatus env.polls = (Except.ok true, 30) ∧
        IG.publishInstagramReel env = .ok link) ∧
    (∀ (env : IG.PubEnv) (cid : String),
      (∀ j, j < 30 → IG.nonTerminal (env.polls j) = true) →
      env.createContainer = .ok (some cid) → cid ≠ "" →
      IG.pollForMediaStatus env.polls = (Except.ok false, 30) ∧
        IG.publishInstagramReel env = .error "Media processing failed or timed out.") ∧
    (∀ polls, (IG.pollForMediaStatus polls).2 ≤ 30) := by
  refine ⟨?_, ?_, ?_⟩
  · intro env cid pid link media hnt hfin hcc hcid hpost hpid hmedia hfind hlink
    have hpoll : IG.pollForMediaStatus env.polls = (Except.ok true, 30) := by
      apply pollAux_finished env.polls 29 30 0 (by omega)
      · intro j hj
        simpa using hnt j hj
      · simpa using hfin
    refine ⟨hpoll, ?_⟩
    unfold IG.publishInstagramReel
    rw [hcc]
    simp [truthy, hcid, hpoll, hpost, hpid, hmedia, hfind, hlink]
  · intro env cid hnt hcc hcid
    have hpoll : IG.pollForMediaStatus env.polls = (Except.ok false, 30) := by
      apply pollAux_timeout env.polls 30 0
      intro j hj
      simpa using hnt j hj
    refine ⟨hpoll, ?_⟩
    unfold IG.publishInstagramReel
    rw [hcc]
    simp [truthy, hcid, hpoll]
  · intro polls
    exact pollAux_count_le polls 30 0

/-- C2 witness: the two poll-sequence scenarios at concrete inputs. -/
theorem c2_poll_budget_witness :
    (IG.pollForMediaStatus pubEnvFinished.polls = (Except.ok true, 30) ∧
      IG.publishInstagramReel pubEnvFinished = .ok "https://host/p/P1") ∧
    (IG.pollForMediaStatus pubEnvTimedOut.polls = (Except.ok false, 30) ∧
      IG.publishInstagramReel pubEnvTimedOut = .error "Media processing failed or timed out.") :=
  ⟨c2_poll_budget.1 pubEnvFinished "CID" "P1" "https://host/p/P1" _
      (by decide) (by decide) rfl (by decide) rfl (by decide) rfl (by decide) (by decide),
    c2_poll_budget.2.1 pubEnvTimedOut "CID" (by decide) rfl (by decide)⟩

/-- C3 (amended): whenever the media-status polling concludes `false` —
whether because a poll returned ERROR or because the 30-attempt budget
was exhausted — the driver raises the one combined error
"Media processing failed or timed out.", so the two failure causes are
not distinguishable by the caller. -/
theorem c3_publish_error_not_distinguished (env : IG.PubEnv) (cid : String)
    (hcc : env.createContainer = .ok (some cid)) (hcid : cid ≠ "")
    (hpoll : (IG.pollForMediaStatus env.polls).1 = Except.ok false) :
    IG.publishInstagramReel env = .error "Media processing failed or timed out." := by
  unfold IG.publishInstagramReel
  rw [hcc]
  simp [truthy, hcid, hpoll]

/-- C3 counterexample: a run whose first poll reports ERROR and a run
that never reaches a terminal status raise the very same error value —
the claimed distinguishing reason does not exist. -/
theorem c3_counterexample :
    IG.publishInstagramReel pubEnvRemoteError = .error "Media processing failed or timed out." ∧
    IG.publishInstagramReel pubEnvTimedOut = .error "Media processing failed or timed out." ∧
    IG.publishInstagramReel pubEnvRemoteError = IG.publishInstagramReel pubEnvTimedOut := by
  refine ⟨by decide, by decide, by decide⟩

/-- C3 witness: the amended theorem applied to the remote-error run. -/
theorem c3_witness :
    IG.publishInstagramReel pubEnvRemoteError = .error "Media processing failed or timed out." :=
  c3_publish_error_not_distinguished pubEnvRemoteError "CID" rfl (by decide) (by decide)

def igRowNew : IG.Row := { status := "Not started", genCaption := none, postLink := none }

def igPageGood : IG.Page :=
  { id := "ig-page-1", videoBrief := some { title := some [some "cat video"], richText := none },
    driveLinkUrl := some "https://drive.google.com/file/d/1a2b3c4d5e6f7g8h9i0j1k2l3m/view",
    publishDateStart := none }

def igEnvNoMatch : IG.EntryEnv :=
  { writeInProgress := .ok (), download := .ok (some "/tmp/reel.mp4"),
    fileDownloaded := fun _ => true, caption := .ok (some " Nice reel! "),
    writeCaption := .ok (),
    pub := { createContainer := .ok (some "C77"), polls := fun _ => .ok (some "FINISHED"),
             createPost := .ok (some "POST77"),
             userMedia := .ok (some [{ id := "OTHER", permalink := some "https://host/p/OTHER" }]) },
    writeLink := .ok (), writeDone := .ok (), writeError := .ok (),
    nowISO := "2026-02-01T10:00:00.000Z" }

/-- C8: when the post id is obtained but no item of the recent-media
lookback matches it, the driver returns the documented placeholder
link `https://www.instagram.com/` instead of raising, and the entry
still completes with status `Done` and that placeholder written as the
post link. -/
theorem c8_placeholder_link (eenv : IG.EntryEnv) (page : IG.Page) (row : IG.Row)
    (cid pid uri capt dl : String) (media : List IG.Media)
    (hdl : page.driveLinkUrl = some dl) (hdl1 : dl ≠ "") (hdl2 : IG.hasFileIdRun dl = true)
    (h1 : eenv.writeInProgress = .ok ())
    (hdown : eenv.download = .ok (some uri)) (huri : uri ≠ "")
    (hfs : eenv.fileDownloaded uri = true)
    (hcap : eenv.caption = .ok (some capt)) (hcapt : jsTrim capt ≠ "")
    (hwc : eenv.writeCaption = .ok ())
    (hcc : eenv.pub.createContainer = .ok (some cid)) (hcid : cid ≠ "")
    (hpoll : (IG.pollForMediaStatus eenv.pub.polls).1 = Except.ok true)
    (hpost : eenv.pub.createPost = .ok (some pid)) (hpid : pid ≠ "")
    (hmedia : eenv.pub.userMedia = .ok (some media))
    (hnomatch : media.find? (fun m => m.id = pid) = none)
    (hwl : eenv.writeLink = .ok ()) (hwd : eenv.writeDone = .ok ()) :
    IG.publishInstagramReel eenv.pub = .ok "https://www.instagram.com/" ∧
    IG.processEntry eenv page row =
      ({ row with status := "Done", genCaption := some (jsTrim capt),
                  postLink := some "https://www.instagram.com/" }, none) := by
  have hpub : IG.publishInstagramReel eenv.pub = .ok "https://www.instagram.com/" := by
    unfold IG.publishInstagramReel
    rw [hcc]
    simp [truthy, hcid, hpoll, hpost, hpid, hmedia, hnomatch]
  refine ⟨hpub, ?_⟩
  unfold IG.processEntry IG.tryBody
  simp [IG.extractInstaData, IG.downloadVideoFromDrive, IG.generateCaption,
    hdl, hdl1, hdl2, h1, hdown, huri, hfs, hcap, hcapt, hwc, hpub, hwl, hwd, truthy]

/-- C8 witness: a concrete run with no matching recent-media item. -/
theorem c8_placeholder_link_witness :
    IG.publishInstagramReel igEnvNoMatch.pub = .ok "https://www.instagram.com/" ∧
    IG.processEntry igEnvNoMatch igPageGood igRowNew =
      ({ igRowNew with status := "Done", genCaption := some (jsTrim " Nice reel! "),
                       postLink := some "https://www.instagram.com/" }, none) :=
  c8_placeholder_link igEnvNoMatch igPageGood igRowNew "C77" "POST77" "/tmp/reel.mp4"
    " Nice reel! " "https://drive.google.com/file/d/1a2b3c4d5e6f7g8h9i0j1k2l3m/view"
    [{ id := "OTHER", permalink := some "https://host/p/OTHER" }]
    rfl (by decide) (by decide) rfl rfl (by decide) rfl rfl (by decide) rfl
    rfl (by decide) (by decide) rfl (by decide) rfl (by decide) rfl rfl

/-- A non-empty string is truthy. -/
theorem truthy_some (s : String) (h : s ≠ "") : truthy (some s) = true := by
  simp [truthy, h]

def connsAll : List (String × String) :=
  [("notion", "conn-n"), ("googlecalendar", "conn-c"), ("openai", "conn-o"),
   ("youtube", "conn-y"), ("googledrive", "conn-d")]

def oracleStub : YT.DateOracle :=
  { toISO := fun s => if s = "2026-03-01" then some "2026-03-01T00:00:00.000Z" else none,
    nowISO := "2026-02-01T10:00:00.000Z" }

def rowNew : YT.Row :=
  { status := "Not started", genTitle := none, genDescription := none, youtubeLink := none }

def pageGood : YT.NotionPage :=
  { id := "page-1", videoBrief := some { title := some [some "cat video"], richText := none },
    driveLinkUrl := some "https://drive.google.com/file/d/ABC123/view",
    publishDateStart := none }

def dataGood : YT.VideoData :=
  { id := "page-1", videoBrief := "cat video", driveFileId := "ABC123",
    publishDate := "2026-02-01T10:00:00.000Z" }

def pageBadLink : YT.NotionPage :=
  { id := "page-2", videoBrief := some { title := some [some "cat video"], richText := none },
    driveLinkUrl := some "https://drive.google.com/open?id=ABC123",
    publishDateStart := none }

def pageBadDate : YT.NotionPage :=
  { id := "page-3", videoBrief := some { title := some [some "cat video"], richText := none },
    driveLinkUrl := some "https://drive.google.com/file/d/ABC123/view",
    publishDateStart := some "tomorrow-ish" }

def pageOtherBadLink : YT.NotionPage :=
  { id := "page-4", videoBrief := some { title := some [some "dog video"], richText := none },
    driveLinkUrl := some "https://example.org/watch?v=123",
    publishDateStart := none }

def envAllOk : YT.Env :=
  { writeInProgress := .ok (), download := .ok (some "/tmp/video.mp4"),
    schedule := .ok (), openaiResult := .ok (some "well-formed-json"),
    jsonParse := fun _ => some { title := "Cats!", description := "Funny cats" },
    upload := .ok (some "VID123"), writeMetadata := .ok (), writeLink := .ok (),
    writeDone := .ok (), writeError := .ok () }

def envGenFail : YT.Env := { envAllOk with openaiResult := .error "OpenAI API error" }

def envUploadFail : YT.Env := { envAllOk with upload := .error "upload exploded" }

def envStuck : YT.Env :=
  { envAllOk with download := .error "drive download failed",
                  writeError := .error "notion update failed" }

/-- C7: once the openai connection is present, a failed text-generation
call, an empty response or an unparsable response all yield the
deterministic fallback metadata instead of raising, and a pipeline
whose remaining steps succeed still drives the row to `Done` with the
fallback title and description written. -/
theorem c7_metadata_fallback (conns : List (String × String)) (oracle : YT.DateOracle)
    (env : YT.Env) (page : YT.NotionPage) (row : YT.Row)
    (data : YT.VideoData) (w : Bool) (p vid : String)
    (hex : YT.extractVideoData oracle page = .ok (data, w))
    (hcn : truthy (connLookup conns "notion") = true)
    (hcg : truthy (connLookup conns "googledrive") = true)
    (hcc : truthy (connLookup conns "googlecalendar") = true)
    (hco : truthy (connLookup conns "openai") = true)
    (hcy : truthy (connLookup conns "youtube") = true)
    (h1 : env.writeInProgress = .ok ())
    (hd : env.download = .ok (some p)) (hp : p ≠ "")
    (hs : env.schedule = .ok ())
    (hfail : env.openaiResult.isOk = false ∨ env.openaiResult = .ok none ∨
      ∃ txt, env.openaiResult = .ok (some txt) ∧
        (txt = "" ∨ env.jsonParse (jsTrim txt) = none))
    (hm : env.writeMetadata = .ok ())
    (hu : env.upload = .ok (some vid)) (hv : vid ≠ "")
    (hl : env.writeLink = .ok ()) (hdone : env.writeDone = .ok ()) :
    YT.generateMetadata conns env data = .ok (YT.fallbackMetadata data) ∧
    YT.processEntry conns oracle env page row =
      ({ row with status := "Done",
                  genTitle := some (data.videoBrief ++ " - Automated Upload"),
                  genDescription := some ("Video about: " ++ data.videoBrief),
                  youtubeLink := some ("https://www.youtube.com/watch?v=" ++ vid) }, none) := by
  have hfid := extractVideoData_fileId_ne oracle page data w hex
  have hgen : YT.generateMetadata conns env data = .ok (YT.fallbackMetadata data) := by
    unfold YT.generateMetadata
    rcases hfail with hf | hf | ⟨txt, hf, hf2⟩
    · cases ho : env.openaiResult with
      | error e => simp [hco, ho]
      | ok v => rw [ho] at hf; simp [Except.isOk, Except.toBool] at hf
    · simp [hco, hf]
    · rcases hf2 with h2 | h2
      · subst h2; simp [hco, hf]
      · simp [hco, hf, h2]
  refine ⟨hgen, ?_⟩
  have htp := truthy_some p hp
  have htv := truthy_some vid hv
  unfold YT.processEntry YT.tryBody
  rw [hex]
  simp [YT.updateNotionPage, YT.downloadVideoFromDrive, YT.scheduleEvent,
    YT.uploadToYouTube, hcn, hcg, hcc, hco, hcy, h1, hd, hs, hgen, hm, hu, htp, htv,
    hl, hdone, hfid, YT.fallbackMetadata]

/-- C7 witness: a failing OpenAI call on a concrete row still ends in
`Done` with the fallback metadata. -/
theorem c7_metadata_fallback_witness :
    YT.generateMetadata connsAll envGenFail dataGood = .ok (YT.fallbackMetadata dataGood) ∧
    YT.processEntry connsAll oracleStub envGenFail pageGood rowNew =
      ({ rowNew with status := "Done",
                     genTitle := some ("cat video" ++ " - Automated Upload"),
                     genDescription := some ("Video about: " ++ "cat video"),
                     youtubeLink := some ("https://www.youtube.com/watch?v=" ++ "VID123") }, none) :=
  c7_metadata_fallback connsAll oracleStub envGenFail pageGood rowNew dataGood true
    "/tmp/video.mp4" "VID123" (by decide) (by decide) (by decide) (by decide) (by decide)
    (by decide) rfl rfl (by decide) rfl (Or.inl (by decide)) rfl rfl (by decide) rfl rfl

/-- C9: when the pipeline fails after the metadata write succeeded
(the publish call throws, or the result-link write throws), the catch
branch writes only the `Error` status: the previously written metadata
fields keep their values and no partial rollback occurs (the link
field also stays untouched). -/
theorem c9_error_preserves_metadata (conns : List (String × String)) (oracle : YT.DateOracle)
    (env : YT.Env) (page : YT.NotionPage) (row : YT.Row)
    (data : YT.VideoData) (w : Bool) (p : String) (md : YT.Metadata)
    (hex : YT.extractVideoData oracle page = .ok (data, w))
    (hcn : truthy (connLookup conns "notion") = true)
    (hcg : truthy (connLookup conns "googledrive") = true)
    (hcc : truthy (connLookup conns "googlecalendar") = true)
    (h1 : env.writeInProgress = .ok ())
    (hd : env.download = .ok (some p)) (hp : p ≠ "")
    (hs : env.schedule = .ok ())
    (hgen : YT.generateMetadata conns env data = .ok md)
    (hm : env.writeMetadata = .ok ())
    (hfail : (∃ e, YT.uploadToYouTube conns env = .error e) ∨
      (∃ url, YT.uploadToYouTube conns env = .ok url ∧ ∃ e2, env.writeLink = .error e2))
    (herr : env.writeError = .ok ()) :
    YT.processEntry conns oracle env page row =
      ({ row with status := "Error", genTitle := some md.title,
                  genDescription := some md.description }, none) := by
  have hfid := extractVideoData_fileId_ne oracle page data w hex
  have htp := truthy_some p hp
  unfold YT.processEntry YT.tryBody
  rw [hex]
  rcases hfail with ⟨e, he⟩ | ⟨url, hurl, e2, he2⟩
  · simp [YT.updateNotionPage, YT.downloadVideoFromDrive, YT.scheduleEvent,
      hcn, hcg, hcc, h1, hd, hs, hgen, hm, htp, hfid, he, herr]
  · simp [YT.updateNotionPage, YT.downloadVideoFromDrive, YT.scheduleEvent,
      hcn, hcg, hcc, h1, hd, hs, hgen, hm, htp, hfid, hurl, he2, herr]

/-- C9 witness: a failing upload on a concrete row leaves the generated
metadata in place and only flips the status to `Error`. -/
theorem c9_error_preserves_metadata_witness :
    YT.processEntry connsAll oracleStub envUploadFail pageGood rowNew =
      ({ rowNew with status := "Error", genTitle := some "Cats!",
                     genDescription := some "Funny cats" }, none) :=
  c9_error_preserves_metadata connsAll oracleStub envUploadFail pageGood rowNew dataGood
    true "/tmp/video.mp4" { title := "Cats!", description := "Funny cats" }
    (by decide) (by decide) (by decide) (by decide) rfl rfl (by decide) rfl (by decide)
    rfl (Or.inl ⟨"upload exploded", by decide⟩) rfl

def envOfAllOk : String → YT.Env := fun _ => envAllOk

/-- C1 (amended): provided entry extraction succeeds and the catch
branch's compensating `Error` write succeeds, one `processEntry` pass
always leaves the row at `Done` (all steps succeeded) or `Error` (some
step failed) with no escaping exception; when extraction throws, the
row instead keeps its prior status (see the counterexample), and when
the compensating write fails the row can stay at `In progress`. -/
theorem c1_status_terminal (conns : List (String × String)) (oracle : YT.DateOracle)
    (env : YT.Env) (page : YT.NotionPage) (row : YT.Row)
    (data : YT.VideoData) (w : Bool)
    (hex : YT.extractVideoData oracle page = .ok (data, w))
    (hcn : truthy (connLookup conns "notion") = true)
    (herr : env.writeError = .ok ()) :
    (YT.processEntry conns oracle env page row).2 = none ∧
    ((YT.processEntry conns oracle env page row).1.status = "Done" ∨
      (YT.processEntry conns oracle env page row).1.status = "Error") := by
  unfold YT.processEntry
  rw [hex]
  dsimp only
  rcases htb : YT.tryBody conns env data row with ⟨r, res⟩
  cases res with
  | ok u =>
    exact ⟨rfl, Or.inl (tryBody_ok_status conns env data row r u htb)⟩
  | error e =>
    simp [YT.updateNotionPage, hcn, herr]

/-- C1 counterexample: a `Not started` row whose Drive link carries no
extractable file id is picked up by the cycle, `processEntry` runs on
it, the extraction exception escapes, and after the pass the row still
has status `Not started` — neither `Done` nor `Error`. -/
theorem c1_counterexample :
    rowNew.status = "Not started" ∧
    YT.processEntry connsAll oracleStub envAllOk pageBadLink rowNew =
      (rowNew,
        some "Could not parse File ID from Google Drive URL: https://drive.google.com/open?id=ABC123") ∧
    YT.findAndProcessNewEntries connsAll oracleStub envOfAllOk true
      [{ page := pageBadLink, row := rowNew }] = [{ page := pageBadLink, row := rowNew }] := by
  refine ⟨rfl, by decide, by decide⟩

/-- C1 witness: on a well-formed row every step succeeding ends in
`Done`; the amended theorem applied at a concrete input. -/
theorem c1_status_terminal_witness :
    (YT.processEntry connsAll oracleStub envAllOk pageGood rowNew).2 = none ∧
    ((YT.processEntry connsAll oracleStub envAllOk pageGood rowNew).1.status = "Done" ∨
      (YT.processEntry connsAll oracleStub envAllOk pageGood rowNew).1.status = "Error") :=
  c1_status_terminal connsAll oracleStub envAllOk pageGood rowNew dataGood true
    (by decide) (by decide) rfl

/-- C4 (amended): an entry whose asset reference yields no file id does
fail with the invalid-reference error, but because `extractVideoData`
runs before `processEntry`'s try block the failure escapes the
per-entry boundary: no status write happens, the row keeps its prior
status, the rest of the cycle is aborted, and the exception is only
caught (and merely logged) at the polling-cycle level. -/
theorem c4_invalid_reference_escapes (conns : List (String × String))
    (oracle : YT.DateOracle) (env : YT.Env) (envOf : String → YT.Env)
    (page : YT.NotionPage) (row : YT.Row) (msg : String) (es : List YT.Entry)
    (henv : envOf page.id = env)
    (hrow : row.status = "Not started")
    (hex : YT.extractVideoData oracle page = .error msg) :
    YT.processEntry conns oracle env page row = (row, some msg) ∧
    YT.processAll conns oracle envOf ({ page := page, row := row } :: es) =
      ({ page := page, row := row } :: es, some msg) ∧
    YT.findAndProcessNewEntries conns oracle envOf true
      ({ page := page, row := row } :: es) = { page := page, row := row } :: es := by
  have hpe : YT.processEntry conns oracle env page row = (row, some msg) := by
    unfold YT.processEntry
    rw [hex]
  have hpa : YT.processAll conns oracle envOf ({ page := page, row := row } :: es) =
      ({ page := page, row := row } :: es, some msg) := by
    unfold YT.processAll
    simp [hrow, henv, hpe]
  refine ⟨hpe, hpa, ?_⟩
  unfold YT.findAndProcessNewEntries
  by_cases hn : truthy (connLookup conns "notion") = true
  · simp [hn, hpa]
  · simp [hn]

/-- C4 counterexample: a concrete unparsable asset link makes
`processEntry` throw without writing any status: the row is left at
`Not started`, not at `Error`. -/
theorem c4_counterexample :
    YT.extractFileIdFromDriveUrl "https://example.org/watch?v=123" =
      .error "Could not parse File ID from Google Drive URL: https://example.org/watch?v=123" ∧
    YT.processEntry connsAll oracleStub envAllOk pageOtherBadLink rowNew =
      (rowNew, some "Could not parse File ID from Google Drive URL: https://example.org/watch?v=123") ∧
    (YT.processEntry connsAll oracleStub envAllOk pageOtherBadLink rowNew).1.status ≠ "Error" := by
  refine ⟨by decide, by decide, by decide⟩

/-- C4 witness: the amended theorem at a concrete unparsable link. -/
theorem c4_invalid_reference_escapes_witness :
    YT.processEntry connsAll oracleStub envAllOk pageBadLink rowNew =
      (rowNew,
        some "Could not parse File ID from Google Drive URL: https://drive.google.com/open?id=ABC123") ∧
    YT.processAll connsAll oracleStub envOfAllOk [{ page := pageBadLink, row := rowNew }] =
      ([{ page := pageBadLink, row := rowNew }],
        some "Could not parse File ID from Google Drive URL: https://drive.google.com/open?id=ABC123") ∧
    YT.findAndProcessNewEntries connsAll oracleStub envOfAllOk true
      [{ page := pageBadLink, row := rowNew }] = [{ page := pageBadLink, row := rowNew }] :=
  c4_invalid_reference_escapes connsAll oracleStub envAllOk envOfAllOk pageBadLink rowNew
    "Could not parse File ID from Google Drive URL: https://drive.google.com/open?id=ABC123"
    [] rfl rfl (by decide)

/-- C6 (amended): schedule extraction is not total.  An absent or empty
`Publish Date` falls back to the current time with the recoverable
warning; a present, parsable value is normalised by the platform date
parser and used as-is (no configured default time-of-day exists in
this agent), with no warning; but a present value the date parser
rejects makes extraction throw, aborting the entry instead of falling
back. -/
theorem c6_schedule_extraction (oracle : YT.DateOracle) (page : YT.NotionPage)
    (fid : String)
    (hlink : YT.extractFileIdFromDriveUrl (page.driveLinkUrl.getD "") = .ok fid) :
    (truthy page.publishDateStart = false →
      YT.extractVideoData oracle page =
        .ok ({ id := page.id, videoBrief := YT.getTextFromProperty page.videoBrief,
               driveFileId := fid, publishDate := oracle.nowISO }, true)) ∧
    (∀ s iso, page.publishDateStart = some s → s ≠ "" → oracle.toISO s = some iso →
      YT.extractVideoData oracle page =
        .ok ({ id := page.id, videoBrief := YT.getTextFromProperty page.videoBrief,
               driveFileId := fid, publishDate := iso }, false)) ∧
    (∀ s, page.publishDateStart = some s → s ≠ "" → oracle.toISO s = none →
      YT.extractVideoData oracle page = .error "Invalid time value") := by
  refine ⟨?_, ?_, ?_⟩
  · intro h
    unfold YT.extractVideoData YT.finalPublishDate
    cases hps : page.publishDateStart with
    | none => simp [hps, hlink, truthy]
    | some s =>
      rw [hps] at h
      simp only [truthy, decide_eq_false_iff_not, ne_eq, not_not] at h
      simp [hps, h, hlink, truthy]
  · intro s iso hps hs hiso
    unfold YT.extractVideoData YT.finalPublishDate
    simp [hps, hs, hiso, hlink, truthy]
  · intro s hps hs hiso
    unfold YT.extractVideoData YT.finalPublishDate
    simp [hps, hs, hiso]

/-- C6 counterexample: a present but unparsable `Publish Date` value
aborts extraction (and so the whole entry) with the RangeError instead
of falling back to the current time with a warning. -/
theorem c6_counterexample :
    oracleStub.toISO "tomorrow-ish" = none ∧
    YT.extractVideoData oracleStub pageBadDate = .error "Invalid time value" ∧
    YT.processEntry connsAll oracleStub envAllOk pageBadDate rowNew =
      (rowNew, some "Invalid time value") := by
  refine ⟨by decide, by decide, by decide⟩

/-- C6 witness: the amended theorem at concrete pages — the absent-date
fallback and the parse-failure abort. -/
theorem c6_schedule_extraction_witness :
    YT.extractVideoData oracleStub pageGood =
      .ok ({ id := "page-1", videoBrief := "cat video", driveFileId := "ABC123",
             publishDate := "2026-02-01T10:00:00.000Z" }, true) ∧
    YT.extractVideoData oracleStub pageBadDate = .error "Invalid time value" :=
  ⟨(c6_schedule_extraction oracleStub pageGood "ABC123" (by decide)).1 (by decide),
    (c6_schedule_extraction oracleStub pageBadDate "ABC123" (by decide)).2.2
      "tomorrow-ish" rfl (by decide) (by decide)⟩

/-- C10: when a pipeline step fails after the row was marked
`In progress` and the compensating `Error` write itself fails, the new
exception escapes `processEntry` leaving the row stuck at
`In progress`, the remaining entries of the cycle are not processed,
and `findAndProcessNewEntries` still returns normally (its catch
swallows the error), so the next polling cycle can run. -/
theorem c10_failed_error_write (conns : List (String × String)) (oracle : YT.DateOracle)
    (env : YT.Env) (envOf : String → YT.Env) (page : YT.NotionPage) (row : YT.Row)
    (data : YT.VideoData) (w : Bool) (e e2 : String) (es : List YT.Entry)
    (hex : YT.extractVideoData oracle page = .ok (data, w))
    (hcn : truthy (connLookup conns "notion") = true)
    (h1 : env.writeInProgress = .ok ())
    (hdfail : YT.downloadVideoFromDrive conns env data.driveFileId = .error e)
    (herr : env.writeError = .error e2)
    (henv : envOf page.id = env)
    (hrow : row.status = "Not started") :
    YT.processEntry conns oracle env page row =
      ({ row with status := "In progress" }, some e2) ∧
    YT.processAll conns oracle envOf ({ page := page, row := row } :: es) =
      ({ page := page, row := { row with status := "In progress" } } :: es, some e2) ∧
    YT.findAndProcessNewEntries conns oracle envOf true
      ({ page := page, row := row } :: es) =
      { page := page, row := { row with status := "In progress" } } :: es := by
  have hpe : YT.processEntry conns oracle env page row =
      ({ row with status := "In progress" }, some e2) := by
    unfold YT.processEntry YT.tryBody
    rw [hex]
    simp [YT.updateNotionPage, hcn, h1, hdfail, herr]
  have hpa : YT.processAll conns oracle envOf ({ page := page, row := row } :: es) =
      ({ page := page, row := { row with status := "In progress" } } :: es, some e2) := by
    unfold YT.processAll
    simp [hrow, henv, hpe]
  refine ⟨hpe, hpa, ?_⟩
  unfold YT.findAndProcessNewEntries
  simp [hcn, hpa]

/-- C10 witness: a concrete cycle where the Drive download fails and
the Notion `Error` write also fails: the first row is stuck at
`In progress` and the second, still-unprocessed row is untouched. -/
theorem c10_failed_error_write_witness :
    YT.processEntry connsAll oracleStub envStuck pageGood rowNew =
      ({ rowNew with status := "In progress" }, some "notion update failed") ∧
    YT.processAll connsAll oracleStub (fun _ => envStuck)
      [{ page := pageGood, row := rowNew },
       { page := pageOtherBadLink, row := rowNew }] =
      ([{ page := pageGood, row := { rowNew with status := "In progress" } },
        { page := pageOtherBadLink, row := rowNew }], some "notion update failed") ∧
    YT.findAndProcessNewEntries connsAll oracleStub (fun _ => envStuck) true
      [{ page := pageGood, row := rowNew },
       { page := pageOtherBadLink, row := rowNew }] =
      [{ page := pageGood, row := { rowNew with status := "In progress" } },
       { page := pageOtherBadLink, row := rowNew }] :=
  c10_failed_error_write connsAll oracleStub envStuck (fun _ => envStuck) pageGood rowNew
    dataGood true "drive download failed" "notion update failed"
    [{ page := pageOtherBadLink, row := rowNew }]
    (by decide) (by decide) rfl (by decide) rfl rfl rfl

def connListOnlyNotion : List Connection :=
  [{ status := "ACTIVE", toolkitSlug := some "notion", id := "conn-1" }]

def connListMixed : List Connection :=
  [{ status := "ACTIVE", toolkitSlug := some "Notion", id := "conn-1" },
   { status := "ACTIVE", toolkitSlug := some "openai", id := "conn-2" },
   { status := "ACTIVE", toolkitSlug := some "github", id := "conn-9" },
   { status := "INACTIVE", toolkitSlug := some "instagram", id := "conn-3" }]

def connListFull : List Connection :=
  [{ status := "ACTIVE", toolkitSlug := some "notion", id := "conn-1" },
   { status := "ACTIVE", toolkitSlug := some "openai", id := "conn-2" },
   { status := "ACTIVE", toolkitSlug := some "instagram", id := "conn-3" },
   { status := "ACTIVE", toolkitSlug := some "googledrive", id := "conn-4" },
   { status := "ACTIVE", toolkitSlug := some "github", id := "conn-9" },
   { status := "INACTIVE", toolkitSlug := some "slack", id := "conn-8" }]

/-- C5 (amended): with at least one active connection, the `missing`
list is exactly the required capabilities without a truthy connection
entry; the Instagram variant then fails with an error listing every
missing capability and succeeds — extra connections ignored — when
none is missing, whereas the YouTube variant never fails on missing
capabilities: it returns its map and only logs the missing list as a
warning, so startup proceeds. -/
theorem c5_resolution (conns : List Connection)
    (hactive : ¬ (activeOf conns).length = 0) :
    (∀ t, t ∈ missingOf IG.requiredToolkits (buildConnections (activeOf conns)) ↔
      t ∈ IG.requiredToolkits ∧
        truthy (connLookup (buildConnections (activeOf conns)) t) = false) ∧
    (missingOf IG.requiredToolkits (buildConnections (activeOf conns)) ≠ [] →
      IG.initializeConnections conns =
        .error ("Missing connections for: " ++ String.intercalate ", "
          (missingOf IG.requiredToolkits (buildConnections (activeOf conns))))) ∧
    (missingOf IG.requiredToolkits (buildConnections (activeOf conns)) = [] →
      IG.initializeConnections conns = .ok (buildConnections (activeOf conns))) ∧
    YT.initializeConnections conns =
      .ok (buildConnections (activeOf conns),
           missingOf YT.requiredToolkits (buildConnections (activeOf conns))) := by
  refine ⟨?_, ?_, ?_, ?_⟩
  · intro t
    simp [missingOf, List.mem_filter]
  · intro hm
    unfold IG.initializeConnections
    rw [if_neg hactive, if_pos]
    exact List.length_pos.mpr hm
  · intro hm
    unfold IG.initializeConnections
    rw [if_neg hactive, if_neg]
    simp [hm]
  · unfold YT.initializeConnections
    rw [if_neg hactive]

/-- C5 counterexample: with only the notion connection active, four
required capabilities are missing, yet the YouTube agent's resolution
succeeds (the missing list is merely logged), refuting the claim that
resolution fails whenever a required capability is missing. -/
theorem c5_counterexample :
    YT.initializeConnections connListOnlyNotion =
      .ok ([("notion", "conn-1")], ["googlecalendar", "openai", "youtube", "googledrive"]) ∧
    (["googlecalendar", "openai", "youtube", "googledrive"] : List String) ≠ [] := by
  refine ⟨by decide, by decide⟩

/-- C5 witness: the amended theorem at concrete connection lists —
missing capabilities listed in the Instagram error, success with
extras ignored, and the YouTube warn-only outcome. -/
theorem c5_resolution_witness :
    IG.initializeConnections connListMixed =
      .error "Missing connections for: instagram, googledrive" ∧
    IG.initializeConnections connListFull = .ok (buildConnections (activeOf connListFull)) ∧
    YT.initializeConnections connListMixed =
      .ok (buildConnections (activeOf connListMixed),
           missingOf YT.requiredToolkits (buildConnections (activeOf connListMixed))) :=
  ⟨(c5_resolution connListMixed (by decide)).2.1 (by decide),
   (c5_resolution connListFull (by decide)).2.2.1 (by decide),
   (c5_resolution connListMixed (by decide)).2.2.2⟩
